import Mathlib

/-!
Verification of the subscription state-transition logic of the
django-newsletter module (`newsletter/models.py`, `newsletter/admin.py`),
as a shallow embedding.

Modelling decisions:
- A subscription row is a record of its persisted fields; datetimes are
  `Option Nat` (`none` = NULL, `some t` = a timestamp), and `now()` is an
  explicit parameter `t` threaded into the operations that read the clock.
- The database table is an association list `List (Nat × Subscription)`
  from primary key to row.  `pk = none` models an unsaved instance
  (`self.pk` falsy in Python); Django auto-assigns positive keys, so pk 0
  never arises and truthiness of `self.pk` is `Option.isSome`.
- Python truthiness of the identity fields: a foreign key is truthy iff it
  is non-NULL; a `CharField`/`EmailField` is truthy iff non-NULL and
  non-empty.
- A failing `assert` (AssertionError) or a raised exception makes an
  operation return `none` / `Except.error`; the write to storage happens
  only on success.
-/

/-- One subscription row: the persisted fields relevant to the
state-transition logic of `Subscription` in `newsletter/models.py`. -/
structure Subscription where
  user : Option Nat
  email_field : Option String
  subscribed : Bool
  unsubscribed : Bool
  subscribe_date : Option Nat
  unsubscribe_date : Option Nat
  deriving Repr, DecidableEq

/-- Python truthiness of the `user` foreign key: truthy iff non-NULL. -/
def truthyUser (u : Option Nat) : Bool := u.isSome

/-- Python truthiness of the `email_field` field: truthy iff non-NULL and
non-empty. -/
def truthyEmail : Option String → Bool
  | none => false
  | some s => !(s == "")

/-- The subscription table: an association list from primary key to row. -/
abbrev SubTable := List (Nat × Subscription)

/-- `Subscription.objects.filter(pk=pk).count()`. -/
def countPk (db : SubTable) (pk : Nat) : Nat :=
  (db.filter (fun r => r.1 == pk)).length

/-- `Subscription.objects.get(pk=pk)` (the first row with that key). -/
def getPk (db : SubTable) (pk : Nat) : Option Subscription :=
  (db.find? (fun r => r.1 == pk)).map Prod.snd

/-- The fresh primary key Django assigns on INSERT. -/
def freshPk (db : SubTable) : Nat :=
  (db.map Prod.fst).foldr Nat.max 0 + 1

/-- The write `super(Subscription, self).save()` performs: UPDATE the row
with key `pk` when present, INSERT otherwise. -/
def writeRow (db : SubTable) (pk : Nat) (s : Subscription) : SubTable :=
  if (db.find? (fun r => r.1 == pk)).isSome then
    db.map (fun r => if r.1 == pk then (pk, s) else r)
  else
    db ++ [(pk, s)]

/-- `Subscription._subscribe` (models.py 216–225): set `subscribe_date`
to now, force `subscribed` true and `unsubscribed` false. -/
def Subscription._subscribe (self : Subscription) (t : Nat) : Subscription :=
  { self with subscribe_date := some t, subscribed := true, unsubscribed := false }

/-- `Subscription._unsubscribe` (models.py 227–236): force `subscribed`
false and `unsubscribed` true, set `unsubscribe_date` to now. -/
def Subscription._unsubscribe (self : Subscription) (t : Nat) : Subscription :=
  { self with subscribed := false, unsubscribed := true, unsubscribe_date := some t }

/-- The if/elif transition block for an existing record inside
`Subscription.save` (models.py 266–283), where `subscription` is the row
freshly fetched from storage (`old_subscribed`/`old_unsubscribed` are its
flags).  Named here so the branches can be reasoned about separately. -/
def save_transition (self subscription : Subscription) (t : Nat) : Subscription :=
  if (self.subscribed && !subscription.subscribed) ||
     (subscription.unsubscribed && !self.unsubscribed) then
    self._subscribe t
  else if (self.unsubscribed && !subscription.unsubscribed) ||
          (subscription.subscribed && !self.subscribed) then
    self._unsubscribe t
  else
    self

/-- The transition block for a new record inside `Subscription.save`
(models.py 284–288). -/
def save_new_transition (self : Subscription) (t : Nat) : Subscription :=
  if self.subscribed then
    self._subscribe t
  else if self.unsubscribed then
    self._unsubscribe t
  else
    self

/-- `Subscription.save` (models.py 238–290).  Arguments: the in-memory
record `self`, its primary key (`none` for an unsaved instance), the
current table `db` and the clock `t`.  Returns `none` when an assertion
fails (AssertionError aborts before any write), otherwise the record as
written, the new table, and the key it was written under.

The two in-branch postcondition assertions of the source
(`assert not self.unsubscribed` / `assert self.subscribed` and their
mirror) are not modelled as failure points: `_subscribe`/`_unsubscribe`
establish them definitionally, so they can never fire. -/
def Subscription.save (self : Subscription) (pk : Option Nat) (db : SubTable)
    (t : Nat) : Option (Subscription × SubTable × Nat) :=
  if !(truthyUser self.user || truthyEmail self.email_field) then
    none
  else if !((truthyUser self.user && !truthyEmail self.email_field) ||
            (truthyEmail self.email_field && !truthyUser self.user)) then
    none
  else
    match pk with
    | some p =>
      if countPk db p != 1 then
        none
      else
        match getPk db p with
        | none => none
        | some subscription =>
          let self' := save_transition self subscription t
          some (self', writeRow db p self', p)
    | none =>
      let self' := save_new_transition self t
      let p := freshPk db
      some (self', db ++ [(p, self')], p)

/-- `Subscription.update` (models.py 189–214): assert the action token is
one of subscribe/update/unsubscribe, set the corresponding flag, save. -/
def Subscription.update (self : Subscription) (action : String)
    (pk : Option Nat) (db : SubTable) (t : Nat) :
    Option (Subscription × SubTable × Nat) :=
  if !(action == "subscribe" || action == "update" || action == "unsubscribe") then
    none
  else
    let self' :=
      if action == "subscribe" || action == "update" then
        { self with subscribed := true }
      else
        { self with unsubscribed := true }
    self'.save pk db t

/-! Admin bulk actions (`newsletter/admin.py`).  Both actions run
`queryset.update(subscribed=...)`, a single SQL UPDATE on the selected
rows: it sets the one column and does not invoke `Subscription.save`.
A queryset is modelled by the list of selected primary keys. -/

/-- `queryset.update(subscribed=value)` over the rows whose key is in
`selected`: set the `subscribed` column, touch nothing else. -/
def queryset_update_subscribed (db : SubTable) (selected : List Nat)
    (value : Bool) : SubTable :=
  db.map (fun r =>
    if selected.contains r.1 then (r.1, { r.2 with subscribed := value }) else r)

/-- `SubscriptionAdmin.make_subscribed` (admin.py 128–138):
`queryset.update(subscribed=True)`. -/
def make_subscribed (db : SubTable) (selected : List Nat) : SubTable :=
  queryset_update_subscribed db selected true

/-- `SubscriptionAdmin.make_unsubscribed` (admin.py 140–150):
`queryset.update(subscribed=False)`. -/
def make_unsubscribed (db : SubTable) (selected : List Nat) : SubTable :=
  queryset_update_subscribed db selected false

/-! The import confirmation step (`admin.py 168–198`). -/

/-- The response the confirm view ends with. -/
inductive ConfirmResponse where
  /-- redirect to `../` — no address mapping in the session -/
  | redirectToImport : ConfirmResponse
  /-- success message `'%s subscriptions have been successfully added.'`
  with the reported count, then redirect to `../../` -/
  | redirectSuccess : Nat → ConfirmResponse
  /-- an exception raised inside the persist loop propagates out of the
  view (after the `finally` block has run) -/
  | errorPropagated : ConfirmResponse
  /-- render the confirmation form (GET, or POST with invalid form) -/
  | renderForm : ConfirmResponse
  deriving Repr, DecidableEq

/-- The `for address in addresses.values(): address.save()` loop inside
the `try` block.  Each entry is an unsaved instance (`pk = None`), so each
save takes the new-record path.  A failing save raises, aborting the loop:
earlier writes stay committed (no atomic batch).  Returns the table after
the loop, whether it completed, and how many entries were attempted. -/
def save_addresses (addresses : List Subscription) (db : SubTable)
    (t : Nat) : SubTable × Bool × Nat :=
  match addresses with
  | [] => (db, true, 0)
  | a :: rest =>
    match a.save none db t with
    | none => (db, false, 1)
    | some (_, db', _) =>
      let res := save_addresses rest db' t
      (res.1, res.2.1, res.2.2 + 1)

/-- `SubscriptionAdmin.subscribers_import_confirm` (admin.py 168–198).
The session is modelled by the optional value of its `addresses` key
(a mapping; only its `.values()` and `len` are used, so a list).
Returns the resulting table, the resulting session value, and the
response.  The `try`/`finally` deletes the session key whether or not the
persist loop raises. -/
def subscribers_import_confirm (sessionAddresses : Option (List Subscription))
    (isPost : Bool) (formValid : Bool) (db : SubTable) (t : Nat) :
    SubTable × Option (List Subscription) × ConfirmResponse :=
  match sessionAddresses with
  | none => (db, none, ConfirmResponse.redirectToImport)
  | some addresses =>
    if isPost && formValid then
      let (db', ok, _) := save_addresses addresses db t
      if ok then
        (db', none, ConfirmResponse.redirectSuccess addresses.length)
      else
        (db', none, ConfirmResponse.errorPropagated)
    else
      (db, some addresses, ConfirmResponse.renderForm)

/-! `Newsletter` and template resolution (`newsletter/models.py`). -/

/-- Modelled from the spec: `ACTIONS` is imported from `newsletter/utils.py`,
which is not part of the sources; the spec's glossary fixes the action
tokens as "subscribe", "update", "unsubscribe". -/
def ACTIONS : List String := ["subscribe", "unsubscribe", "update"]

/-- The fields of `Newsletter` that template resolution reads. -/
structure Newsletter where
  slug : String
  send_html : Bool
  deriving Repr, DecidableEq

/-- Django's `select_template`: the first candidate that exists, raising
(`none`) when none does.  Which template files exist is the environment
`tplExists`. -/
def select_template (tplExists : String → Bool) (candidates : List String) :
    Option String :=
  candidates.find? tplExists

/-- `Newsletter.get_templates` (models.py 54–91): assert the action is
known, then resolve (subject, text, html) with per-newsletter override and
global fallback; no html template is looked up when `send_html` is false.
`none` models a raised AssertionError or TemplateDoesNotExist. -/
def Newsletter.get_templates (self : Newsletter) (tplExists : String → Bool)
    (action : String) : Option (String × String × Option String) :=
  if !((ACTIONS ++ ["message"]).contains action) then
    none
  else
    let tpl_root := "newsletter/message/"
    match select_template tplExists
        [tpl_root ++ self.slug ++ "/" ++ action ++ "_subject.txt",
         tpl_root ++ action ++ "_subject.txt"] with
    | none => none
    | some subject_template =>
      match select_template tplExists
          [tpl_root ++ self.slug ++ "/" ++ action ++ ".txt",
           tpl_root ++ action ++ ".txt"] with
      | none => none
      | some text_template =>
        if self.send_html then
          match select_template tplExists
              [tpl_root ++ self.slug ++ "/" ++ action ++ ".html",
               tpl_root ++ action ++ ".html"] with
          | none => none
          | some html_template =>
            some (subject_template, text_template, some html_template)
        else
          some (subject_template, text_template, none)

/-! `Subscription.send_activation_email` (models.py 343–385). -/

/-- The names bound at module level in `newsletter/models.py` (its import
statements, module globals and class statements).  `Context` is not among
them: the module never imports `django.template.Context`. -/
def models_module_scope : List String :=
  ["logging", "logger", "models", "permalink", "select_template", "now",
   "EmailMultiAlternatives", "Site", "CurrentSiteManager", "settings",
   "make_activation_code", "get_default_sites", "ACTIONS", "User",
   "Newsletter", "Subscription"]

/-- The exceptions `send_activation_email` can raise. -/
inductive PyError where
  | assertionError : PyError
  | templateDoesNotExist : PyError
  | nameError : String → PyError
  deriving Repr, DecidableEq

/-- An outbound multipart message as composed by `EmailMultiAlternatives`. -/
structure Email where
  subject : String
  body : String
  to_addr : String
  html_alternative : Option String
  deriving Repr, DecidableEq

/-- `Subscription.send_activation_email` (models.py 343–385), following
the source line by line: assert the action, resolve templates, build the
context dict, then evaluate `Context(variable_dict, autoescape=False)` —
a global name lookup of `Context` in the module scope, which raises
NameError when unbound.  Only after that would the message be composed
(rendering is the abstract environment `render`) and sent.  Returns the
list of messages sent. -/
def Subscription.send_activation_email (self : Subscription)
    (newsletter : Newsletter) (tplExists : String → Bool)
    (render : String → String) (action : String) :
    Except PyError (List Email) :=
  if !(ACTIONS.contains action) then
    Except.error PyError.assertionError
  else
    match newsletter.get_templates tplExists action with
    | none => Except.error PyError.templateDoesNotExist
    | some (subject_template, text_template, html_template) =>
      if !(models_module_scope.contains "Context") then
        Except.error (PyError.nameError "Context")
      else
        let subject := render subject_template
        let text := render text_template
        let message : Email :=
          { subject := subject, body := text,
            to_addr := (self.email_field.getD ""),
            html_alternative := html_template.map render }
        Except.ok [message]

/-! ### Concrete instances used by the witnesses and counterexamples -/

def storedBothC1 : Subscription :=
  { user := none, email_field := some "a@b.c", subscribed := true,
    unsubscribed := true, subscribe_date := none, unsubscribe_date := none }

def rWitC1 : Subscription :=
  { user := none, email_field := some "w@x.y", subscribed := true,
    unsubscribed := false, subscribe_date := some 4, unsubscribe_date := none }

def storedC2 : Subscription :=
  { user := none, email_field := some "a@b.c", subscribed := false,
    unsubscribed := true, subscribe_date := none, unsubscribe_date := some 3 }

def selfC2 : Subscription :=
  { user := none, email_field := some "a@b.c", subscribed := false,
    unsubscribed := false, subscribe_date := none, unsubscribe_date := some 3 }

def rC2 : Subscription :=
  { user := none, email_field := some "a@b.c", subscribed := true,
    unsubscribed := false, subscribe_date := some 7, unsubscribe_date := some 3 }

def selfC3 : Subscription :=
  { user := none, email_field := some "x@y.z", subscribed := true,
    unsubscribed := true, subscribe_date := none, unsubscribe_date := none }

def rC3 : Subscription :=
  { user := none, email_field := some "x@y.z", subscribed := true,
    unsubscribed := false, subscribe_date := some 5, unsubscribe_date := none }

def storedC5 : Subscription :=
  { user := none, email_field := some "a@b.c", subscribed := true,
    unsubscribed := false, subscribe_date := some 2, unsubscribe_date := none }

def selfC6 : Subscription :=
  { user := none, email_field := some "u@v.w", subscribed := false,
    unsubscribed := false, subscribe_date := none, unsubscribe_date := none }

def storedC4 : Subscription :=
  { user := none, email_field := some "a@b.c", subscribed := false,
    unsubscribed := true, subscribe_date := none, unsubscribe_date := some 3 }

def rC4 : Subscription :=
  { user := none, email_field := some "a@b.c", subscribed := true,
    unsubscribed := false, subscribe_date := some 7, unsubscribe_date := some 3 }

def badAddrC8 : Subscription :=
  { user := none, email_field := none, subscribed := true,
    unsubscribed := false, subscribe_date := none, unsubscribe_date := none }

def goodAddrC8 : Subscription :=
  { user := none, email_field := some "x@y.z", subscribed := true,
    unsubscribed := false, subscribe_date := none, unsubscribe_date := none }

def tplExistsC9 : String → Bool := fun s =>
  s == "newsletter/message/subscribe_subject.txt" ||
  s == "newsletter/message/subscribe.txt" ||
  s == "newsletter/message/subscribe.html"

def selfC10 : Subscription :=
  { user := none, email_field := some "a@b.c", subscribed := true,
    unsubscribed := false, subscribe_date := some 1, unsubscribe_date := none }

/-! ### Helper lemmas -/

lemma save_existing_some_elim {self : Subscription} {p : Nat} {db : SubTable}
    {t : Nat} {r : Subscription} {db' : SubTable} {p' : Nat}
    (hsave : self.save (some p) db t = some (r, db', p')) :
    ∃ stored, getPk db p = some stored ∧ r = save_transition self stored t ∧
      p' = p ∧ db' = writeRow db p r := by
  unfold Subscription.save at hsave
  split at hsave
  · exact absurd hsave (by simp)
  split at hsave
  · exact absurd hsave (by simp)
  split at hsave
  next q heq =>
    injection heq with hpq
    subst hpq
    split at hsave
    · exact absurd hsave (by simp)
    split at hsave
    · exact absurd hsave (by simp)
    next stored heq2 =>
      refine ⟨stored, heq2, ?_⟩
      injection hsave with h1
      injection h1 with hr hrest
      injection hrest with hdb hp
      exact ⟨hr.symm, hp.symm, by rw [← hdb, ← hr]⟩
  next heq =>
    exact absurd heq (by simp)

lemma save_new_some_elim {self : Subscription} {db : SubTable} {t : Nat}
    {r : Subscription} {db' : SubTable} {p' : Nat}
    (hsave : self.save none db t = some (r, db', p')) :
    r = save_new_transition self t ∧ p' = freshPk db ∧ db' = db ++ [(p', r)] := by
  unfold Subscription.save at hsave
  split at hsave
  · exact absurd hsave (by simp)
  split at hsave
  · exact absurd hsave (by simp)
  injection hsave with h1
  injection h1 with hr hrest
  injection hrest with hdb hp
  exact ⟨hr.symm, hp.symm, by rw [← hdb, ← hr, hp]⟩

lemma countPk_eq_zero_of_getPk_none (db : SubTable) (p : Nat)
    (h : getPk db p = none) : countPk db p = 0 := by
  induction db with
  | nil => rfl
  | cons a rest ih =>
    by_cases hc : (a.1 == p) = true
    · simp [getPk, List.find?, hc] at h
    · have h' : getPk rest p = none := by
        simpa [getPk, List.find?, hc] using h
      have h0 := ih h'
      simpa [countPk, List.filter, hc] using h0

lemma getPk_queryset_update (db : SubTable) (selected : List Nat) (v : Bool)
    (p : Nat) :
    getPk (queryset_update_subscribed db selected v) p =
      (getPk db p).map
        (fun s => if selected.contains p then { s with subscribed := v } else s) := by
  induction db with
  | nil => rfl
  | cons a rest ih =>
    by_cases hc : (a.1 == p) = true
    · have hap : a.1 = p := by simpa using hc
      subst hap
      by_cases hs : a.1 ∈ selected
      · simp [queryset_update_subscribed, getPk, List.find?, hs]
      · simp [queryset_update_subscribed, getPk, List.find?, hs]
    · by_cases hs : a.1 ∈ selected
      · simpa [queryset_update_subscribed, getPk, List.find?, hc, hs] using ih
      · simpa [queryset_update_subscribed, getPk, List.find?, hc, hs] using ih

lemma save_addresses_ok (addresses : List Subscription) (db : SubTable)
    (t : Nat) (h : (save_addresses addresses db t).2.1 = true) :
    (save_addresses addresses db t).2.2 = addresses.length ∧
    (save_addresses addresses db t).1.length = db.length + addresses.length := by
  induction addresses generalizing db with
  | nil => simp [save_addresses]
  | cons a rest ih =>
    cases hs : a.save none db t with
    | none =>
      simp only [save_addresses, hs] at h
      simp at h
    | some res =>
      obtain ⟨r, db2, p2⟩ := res
      simp only [save_addresses, hs] at h ⊢
      have hlen : db2.length = db.length + 1 := by
        obtain ⟨-, -, hdb⟩ := save_new_some_elim hs
        rw [hdb]
        simp
      obtain ⟨h1, h2⟩ := ih db2 h
      refine ⟨by simp [h1], ?_⟩
      simp only [List.length_cons]
      rw [h2, hlen]
      omega

/-! ### Claim theorems -/

/-- C1 counterexample: a successful `Subscription.save` of an existing record whose stored row already has both flags true completes with both `subscribed` and `unsubscribed` still true, refuting the claim for arbitrary previously-stored flag combinations. -/
theorem save_both_flags_counterexample :
    (storedBothC1.subscribed = true ∧ storedBothC1.unsubscribed = true)
    ∧ storedBothC1.save (some 1) [(1, storedBothC1)] 7 =
        some (storedBothC1, [(1, storedBothC1)], 1) := by
  constructor
  · exact ⟨rfl, rfl⟩
  · decide

/-- C1 (amended): after every successful `Subscription.save`, the resulting record never has `subscribed` and `unsubscribed` simultaneously true, provided that for an existing record the previously stored row does not itself have both flags true; for a new record this holds unconditionally. -/
theorem save_result_not_both_flags (self : Subscription) (pk : Option Nat)
    (db : SubTable) (t : Nat) (r : Subscription) (db' : SubTable) (p : Nat)
    (hinv : ∀ q stored, pk = some q → getPk db q = some stored →
        ¬(stored.subscribed = true ∧ stored.unsubscribed = true))
    (hsave : self.save pk db t = some (r, db', p)) :
    ¬(r.subscribed = true ∧ r.unsubscribed = true) := by
  cases pk with
  | none =>
    obtain ⟨hr, -, -⟩ := save_new_some_elim hsave
    subst hr
    unfold save_new_transition Subscription._subscribe Subscription._unsubscribe
    cases h1 : self.subscribed <;> cases h2 : self.unsubscribed <;> simp_all
  | some q =>
    obtain ⟨stored, hget, hr, -, -⟩ := save_existing_some_elim hsave
    have hnb := hinv q stored rfl hget
    subst hr
    unfold save_transition Subscription._subscribe Subscription._unsubscribe
    cases h1 : self.subscribed <;> cases h2 : self.unsubscribed <;>
      cases h3 : stored.subscribed <;> cases h4 : stored.unsubscribed <;>
      simp_all

/-- C1 witness: the amended invariant at a concrete new-record save. -/
theorem save_result_not_both_flags_witness :
    ¬(rWitC1.subscribed = true ∧ rWitC1.unsubscribed = true) :=
  save_result_not_both_flags
    { user := none, email_field := some "w@x.y", subscribed := true,
      unsubscribed := false, subscribe_date := none, unsubscribe_date := none }
    none [] 4 rWitC1 [(1, rWitC1)] 1
    (fun _ _ hq _ => nomatch hq) (by decide)

/-- C2: a successful save of an existing record performs the subscribe transition exactly when (new `subscribed` and not stored `subscribed`) or (stored `unsubscribed` and not new `unsubscribed`); the transition makes `subscribed` true, `unsubscribed` false and sets `subscribe_date` to the save time (the freshness hypothesis rules out a coincidentally equal pre-existing timestamp). -/
theorem save_existing_subscribe_iff (self stored : Subscription) (p : Nat)
    (db : SubTable) (t : Nat) (r : Subscription) (db' : SubTable) (p' : Nat)
    (hget : getPk db p = some stored)
    (hfresh : self.subscribe_date ≠ some t)
    (hsave : self.save (some p) db t = some (r, db', p')) :
    (((self.subscribed && !stored.subscribed) ||
      (stored.unsubscribed && !self.unsubscribed)) = true)
    ↔ (r.subscribed = true ∧ r.unsubscribed = false ∧ r.subscribe_date = some t) := by
  obtain ⟨stored2, hget2, hr, -, -⟩ := save_existing_some_elim hsave
  rw [hget] at hget2
  injection hget2 with he
  subst he
  subst hr
  unfold save_transition Subscription._subscribe Subscription._unsubscribe
  cases h1 : self.subscribed <;> cases h2 : self.unsubscribed <;>
    cases h3 : stored.subscribed <;> cases h4 : stored.unsubscribed <;>
    simp_all

/-- C2 witness: the equivalence at a concrete unsubscribed-to-subscribed save. -/
theorem save_existing_subscribe_iff_witness :
    (((selfC2.subscribed && !storedC2.subscribed) ||
      (storedC2.unsubscribed && !selfC2.unsubscribed)) = true)
    ↔ (rC2.subscribed = true ∧ rC2.unsubscribed = false ∧
       rC2.subscribe_date = some 7) :=
  save_existing_subscribe_iff selfC2 storedC2 1 [(1, storedC2)] 7 rC2
    [(1, rC2)] 1 (by decide) (by decide) (by decide)

/-- C3: saving a new record with `subscribed` requested sets `subscribe_date` to the current time and forces `unsubscribed` false (the subscribe branch taking precedence even when `unsubscribed` is also requested); else with `unsubscribed` requested it sets `unsubscribe_date` and forces `subscribed` false; else the record is written unchanged. -/
theorem save_new_record_spec (self : Subscription) (db : SubTable) (t : Nat)
    (r : Subscription) (db' : SubTable) (p : Nat)
    (hsave : self.save none db t = some (r, db', p)) :
    (self.subscribed = true →
      r.subscribe_date = some t ∧ r.subscribed = true ∧ r.unsubscribed = false ∧
      r.unsubscribe_date = self.unsubscribe_date)
    ∧ (self.subscribed = false → self.unsubscribed = true →
      r.unsubscribe_date = some t ∧ r.unsubscribed = true ∧ r.subscribed = false ∧
      r.subscribe_date = self.subscribe_date)
    ∧ (self.subscribed = false → self.unsubscribed = false → r = self) := by
  obtain ⟨hr, -, -⟩ := save_new_some_elim hsave
  subst hr
  unfold save_new_transition Subscription._subscribe Subscription._unsubscribe
  cases h1 : self.subscribed <;> cases h2 : self.unsubscribed <;> simp_all

/-- C3 witness: a concrete new record requesting both flags, showing the subscribe branch wins. -/
theorem save_new_record_spec_witness :
    rC3.subscribe_date = some 5 ∧ rC3.subscribed = true ∧
    rC3.unsubscribed = false ∧ rC3.unsubscribe_date = selfC3.unsubscribe_date :=
  (save_new_record_spec selfC3 [] 5 rC3 [(1, rC3)] 1 (by decide)).1 (by decide)

/-- C4 counterexample: on a stored unsubscribed row the admin bulk action writes a row different from what the state-transition hook would write — it leaves `unsubscribed` true and sets no `subscribe_date` — so the bulk actions do not go through the hook. -/
theorem make_subscribed_not_via_save :
    getPk (make_subscribed [(1, storedC4)] [1]) 1 =
        some { storedC4 with subscribed := true }
    ∧ Subscription.save { storedC4 with subscribed := true } (some 1)
        [(1, storedC4)] 7 = some (rC4, [(1, rC4)], 1)
    ∧ ({ storedC4 with subscribed := true } : Subscription) ≠ rC4 := by
  refine ⟨by decide, by decide, by decide⟩

/-- C4 (amended): `Subscription.update` persists through the state-transition hook (`Subscription.save`), but the admin bulk actions bypass it: they set only the `subscribed` column of each selected row, leaving the `unsubscribed` flag and both timestamps untouched. -/
theorem admin_bulk_actions_direct_write (db : SubTable) (selected : List Nat)
    (p : Nat) (stored : Subscription) (self : Subscription) (pk : Option Nat)
    (t : Nat) (hget : getPk db p = some stored)
    (hsel : selected.contains p = true) :
    getPk (make_subscribed db selected) p =
        some { stored with subscribed := true }
    ∧ getPk (make_unsubscribed db selected) p =
        some { stored with subscribed := false }
    ∧ self.update "update" pk db t =
        Subscription.save { self with subscribed := true } pk db t := by
  have hsel' : p ∈ selected := by simpa using hsel
  refine ⟨?_, ?_, rfl⟩
  · rw [make_subscribed, getPk_queryset_update, hget]
    simp [hsel']
  · rw [make_unsubscribed, getPk_queryset_update, hget]
    simp [hsel']

/-- C4 witness: the direct column write at a concrete table. -/
theorem admin_bulk_actions_direct_write_witness :
    getPk (make_subscribed [(1, storedC4)] [1]) 1 =
        some { storedC4 with subscribed := true }
    ∧ getPk (make_unsubscribed [(1, storedC4)] [1]) 1 =
        some { storedC4 with subscribed := false }
    ∧ storedC4.update "update" (some 1) [(1, storedC4)] 7 =
        Subscription.save { storedC4 with subscribed := true } (some 1)
          [(1, storedC4)] 7 :=
  admin_bulk_actions_direct_write [(1, storedC4)] [1] 1 storedC4 storedC4
    (some 1) 7 (by decide) (by decide)

/-- C5: saving an existing record whose requested flags equal the stored flags leaves `subscribe_date` and `unsubscribe_date` unchanged. -/
theorem save_no_flag_change_keeps_dates (self stored : Subscription) (p : Nat)
    (db : SubTable) (t : Nat) (r : Subscription) (db' : SubTable) (p' : Nat)
    (hget : getPk db p = some stored)
    (hsub : stored.subscribed = self.subscribed)
    (hunsub : stored.unsubscribed = self.unsubscribed)
    (hsave : self.save (some p) db t = some (r, db', p')) :
    r.subscribe_date = self.subscribe_date ∧
    r.unsubscribe_date = self.unsubscribe_date := by
  obtain ⟨stored2, hget2, hr, -, -⟩ := save_existing_some_elim hsave
  rw [hget] at hget2
  injection hget2 with he
  subst he
  subst hr
  unfold save_transition
  rw [hsub, hunsub]
  cases h1 : self.subscribed <;> cases h2 : self.unsubscribed <;> simp_all

/-- C5 witness: saving `subscribed=true` twice in a row does not reset `subscribe_date`. -/
theorem save_no_flag_change_keeps_dates_witness :
    storedC5.subscribe_date = storedC5.subscribe_date ∧
    storedC5.unsubscribe_date = storedC5.unsubscribe_date :=
  save_no_flag_change_keeps_dates storedC5 storedC5 1 [(1, storedC5)] 9
    storedC5 [(1, storedC5)] 1 (by decide) rfl rfl (by decide)

/-- C6: `update "subscribe"` and `update "update"` are the same operation — both request `subscribed := true` and delegate to `save`, yielding identical results; `update "unsubscribe"` requests `unsubscribed := true`; every other action token is rejected. -/
theorem update_action_semantics (self : Subscription) (pk : Option Nat)
    (db : SubTable) (t : Nat) :
    self.update "subscribe" pk db t =
        Subscription.save { self with subscribed := true } pk db t
    ∧ self.update "update" pk db t =
        Subscription.save { self with subscribed := true } pk db t
    ∧ self.update "unsubscribe" pk db t =
        Subscription.save { self with unsubscribed := true } pk db t
    ∧ ∀ action : String, action ≠ "subscribe" → action ≠ "update" →
        action ≠ "unsubscribe" → self.update action pk db t = none := by
  refine ⟨rfl, rfl, rfl, ?_⟩
  intro action h1 h2 h3
  unfold Subscription.update
  simp [h1, h2, h3]

/-- C6 witness: the subscribe/update equivalence and the rejection of an unknown token at concrete inputs. -/
theorem update_action_semantics_witness :
    selfC6.update "subscribe" none [] 0 =
        Subscription.save { selfC6 with subscribed := true } none [] 0
    ∧ selfC6.update "activate" none [] 0 = none :=
  ⟨(update_action_semantics selfC6 none [] 0).1,
   (update_action_semantics selfC6 none [] 0).2.2.2 "activate"
     (by decide) (by decide) (by decide)⟩

/-- C7: `Subscription.save` aborts without writing exactly when the user reference and the standalone email are both unset or both set, or when an existing primary key does not resolve to exactly one stored row; under the identity invariant the identity aborts never trigger. -/
theorem save_fails_iff (self : Subscription) (pk : Option Nat) (db : SubTable)
    (t : Nat) :
    self.save pk db t = none ↔
      ((truthyUser self.user = false ∧ truthyEmail self.email_field = false)
       ∨ (truthyUser self.user = true ∧ truthyEmail self.email_field = true)
       ∨ (∃ p, pk = some p ∧ countPk db p ≠ 1)) := by
  constructor
  · intro h
    unfold Subscription.save at h
    split at h
    · next hcond =>
      left
      revert hcond
      cases truthyUser self.user <;> cases truthyEmail self.email_field <;> simp
    split at h
    · next hfst hcond =>
      right; left
      revert hfst hcond
      cases truthyUser self.user <;> cases truthyEmail self.email_field <;> simp
    split at h
    next q =>
      right; right
      refine ⟨q, rfl, ?_⟩
      split at h
      · next hcnt => simpa using hcnt
      · next hcnt =>
        split at h
        · next hnone =>
          have h0 := countPk_eq_zero_of_getPk_none db q hnone
          simp [bne_iff_ne] at hcnt
          omega
        · next stored heq2 => exact absurd h (by simp)
    next =>
      exact absurd h (by simp)
  · intro h
    rcases h with ⟨h1, h2⟩ | ⟨h1, h2⟩ | ⟨q, hpk, hcount⟩
    · unfold Subscription.save
      simp [h1, h2]
    · unfold Subscription.save
      simp [h1, h2]
    · subst hpk
      unfold Subscription.save
      split
      · rfl
      split
      · rfl
      have hb : (countPk db q != 1) = true := by simpa [bne_iff_ne] using hcount
      simp [hb]

/-- C8 counterexample: with a session mapping of two addresses whose first save fails, only one entry is attempted and none of the remaining entries is persisted — persisting is not attempted for every entry of the mapping. -/
theorem import_confirm_abort_counterexample :
    (save_addresses [badAddrC8, goodAddrC8] [] 9).2.2 = 1
    ∧ [badAddrC8, goodAddrC8].length = 2
    ∧ subscribers_import_confirm (some [badAddrC8, goodAddrC8]) true true [] 9 =
        ([], none, ConfirmResponse.errorPropagated) := by
  refine ⟨by decide, by decide, by decide⟩

/-- C8 (amended): on the confirmation POST the addresses are persisted in order through the new-record save path until the first failure — all N are attempted when every save succeeds, in which case N rows are added and a count of N is reported — and the session key is cleared whether the persist loop completes or raises. -/
theorem subscribers_import_confirm_spec (addresses : List Subscription)
    (db : SubTable) (t : Nat) :
    (subscribers_import_confirm (some addresses) true true db t).2.1 = none
    ∧ ((save_addresses addresses db t).2.1 = true →
        subscribers_import_confirm (some addresses) true true db t =
          ((save_addresses addresses db t).1, none,
           ConfirmResponse.redirectSuccess addresses.length)
        ∧ (save_addresses addresses db t).2.2 = addresses.length
        ∧ (save_addresses addresses db t).1.length =
            db.length + addresses.length)
    ∧ ((save_addresses addresses db t).2.1 = false →
        (subscribers_import_confirm (some addresses) true true db t).2.2 =
          ConfirmResponse.errorPropagated) := by
  refine ⟨?_, ?_, ?_⟩
  · unfold subscribers_import_confirm
    cases hok : (save_addresses addresses db t).2.1 <;> simp [hok]
  · intro hok
    obtain ⟨h1, h2⟩ := save_addresses_ok addresses db t hok
    refine ⟨?_, h1, h2⟩
    unfold subscribers_import_confirm
    simp [hok]
  · intro hok
    unfold subscribers_import_confirm
    simp [hok]

/-- C8 witness: a succeeding one-entry import and a failing one-entry import. -/
theorem subscribers_import_confirm_spec_witness :
    subscribers_import_confirm (some [goodAddrC8]) true true [] 9 =
      ([(1, { goodAddrC8 with subscribe_date := some 9 })], none,
       ConfirmResponse.redirectSuccess 1)
    ∧ (subscribers_import_confirm (some [badAddrC8]) true true [] 9).2.2 =
        ConfirmResponse.errorPropagated :=
  ⟨((subscribers_import_confirm_spec [goodAddrC8] [] 9).2.1 (by decide)).1.trans
     (by decide),
   (subscribers_import_confirm_spec [badAddrC8] [] 9).2.2 (by decide)⟩

/-- C9: for a valid action token (with the newsletter-agnostic fallback templates present), `get_templates` resolves each of subject, text and html by first trying the newsletter-slug-specific path and falling back to the newsletter-agnostic path, and the html component is absent when `send_html` is false. -/
theorem get_templates_resolution (nl : Newsletter) (tplExists : String → Bool)
    (action : String)
    (hact : (ACTIONS ++ ["message"]).contains action = true)
    (hsubj : tplExists ("newsletter/message/" ++ action ++ "_subject.txt") = true)
    (htext : tplExists ("newsletter/message/" ++ action ++ ".txt") = true)
    (hhtml : tplExists ("newsletter/message/" ++ action ++ ".html") = true) :
    nl.get_templates tplExists action =
      some
        ((if tplExists ("newsletter/message/" ++ nl.slug ++ "/" ++ action ++
              "_subject.txt") = true
          then "newsletter/message/" ++ nl.slug ++ "/" ++ action ++ "_subject.txt"
          else "newsletter/message/" ++ action ++ "_subject.txt"),
         (if tplExists ("newsletter/message/" ++ nl.slug ++ "/" ++ action ++
              ".txt") = true
          then "newsletter/message/" ++ nl.slug ++ "/" ++ action ++ ".txt"
          else "newsletter/message/" ++ action ++ ".txt"),
         (if nl.send_html = true
          then some (if tplExists ("newsletter/message/" ++ nl.slug ++ "/" ++
                         action ++ ".html") = true
                     then "newsletter/message/" ++ nl.slug ++ "/" ++ action ++
                       ".html"
                     else "newsletter/message/" ++ action ++ ".html")
          else none)) := by
  unfold Newsletter.get_templates select_template
  rw [hact]
  by_cases h1 : tplExists ("newsletter/message/" ++ nl.slug ++ "/" ++ action ++
      "_subject.txt") = true <;>
    by_cases h2 : tplExists ("newsletter/message/" ++ nl.slug ++ "/" ++ action ++
      ".txt") = true <;>
    by_cases h3 : tplExists ("newsletter/message/" ++ nl.slug ++ "/" ++ action ++
      ".html") = true <;>
    cases hsh : nl.send_html <;>
    simp [List.find?, h1, h2, h3, hsh, hsubj, htext, hhtml]

/-- C9 witness: newsletter "weekly" with no custom templates falls back to the global templates. -/
theorem get_templates_resolution_witness :
    Newsletter.get_templates ⟨"weekly", true⟩ tplExistsC9 "subscribe" =
      some ("newsletter/message/subscribe_subject.txt",
            "newsletter/message/subscribe.txt",
            some "newsletter/message/subscribe.html") :=
  (get_templates_resolution ⟨"weekly", true⟩ tplExistsC9 "subscribe"
    (by decide) (by decide) (by decide) (by decide)).trans (by decide)

/-- C10: `send_activation_email` never returns a sent message; whenever the action token is valid and the templates resolve, it raises a NameError on the unbound global `Context` before composing any message. -/
theorem send_activation_email_never_sends (self : Subscription)
    (nl : Newsletter) (tplExists : String → Bool) (render : String → String)
    (action : String) :
    (∀ es, self.send_activation_email nl tplExists render action ≠ Except.ok es)
    ∧ (ACTIONS.contains action = true →
       (nl.get_templates tplExists action).isSome = true →
       self.send_activation_email nl tplExists render action =
         Except.error (PyError.nameError "Context")) := by
  have hctx : models_module_scope.contains "Context" = false := by decide
  constructor
  · intro es h
    unfold Subscription.send_activation_email at h
    split at h
    · exact absurd h (by simp)
    split at h
    · exact absurd h (by simp)
    · rw [hctx] at h
      simp at h
  · intro hact htpl
    obtain ⟨tpl, htpl2⟩ := Option.isSome_iff_exists.mp htpl
    obtain ⟨s, x, hopt⟩ := tpl
    unfold Subscription.send_activation_email
    rw [hact, htpl2, hctx]
    simp

/-- C10 witness: the NameError at concrete inputs. -/
theorem send_activation_email_never_sends_witness :
    selfC10.send_activation_email ⟨"weekly", true⟩ (fun _ => true)
      (fun s => s) "subscribe" = Except.error (PyError.nameError "Context") :=
  (send_activation_email_never_sends selfC10 ⟨"weekly", true⟩ (fun _ => true)
    (fun s => s) "subscribe").2 (by decide) (by decide)
